import Mathlib

/-!
# Wait emulation of `pkg/cmd/proc/reaper/wait.go`

A shallow embedding of `WaitWrapper`, `ProcessWaitWrapper`, `ExitError` and
`convertWaitStatus`, followed by the properties proved about them.

Conventions of the embedding

* A Go `error` is an `Option GoError`; `none` is the nil error.
* `syscall.WaitStatus` is the Linux `uint32` encoding, held in a `Nat`.
* The notification channel is the list of values that will be delivered on it,
  in order, together with a flag telling whether the channel is closed after them.
* A call either returns (with its error and the channel as it leaves it) or blocks
  forever in a receive on an open channel that delivers nothing more.
* The operating system calls on a handle (`cmd.Wait`, `proc.Wait`, `proc.Release`) are
  represented by the error they report when called.
* Termination is studied on a finer embedding (`WaitWrapperRun`, `ProcessWaitWrapperRun`)
  in which a call on a handle may never return and `cmd.Process` may be nil; on a
  started handle whose calls return it agrees with the embedding above.
-/

namespace Reaper

/-! ## Errors -/

/-- Go error values that pass through `wait.go`: the package's own `*ExitError`, the
value built by `fmt.Errorf`, and an error reported by the operating system layer, which
the code only inspects through its `Error()` text. -/
inductive GoError where
  | exitError (ExitCode : Int)
  | errorf (msg : String)
  | osError (msg : String)
  deriving DecidableEq, Repr

/-- The `Error()` method. For `*ExitError` it is `fmt.Sprintf("exit status %d", ExitCode)`. -/
def GoError.Error : GoError → String
  | .exitError c => "exit status " ++ toString c
  | .errorf m => m
  | .osError m => m

/-! ## `syscall.WaitStatus` (Linux encoding) -/

namespace WaitStatus

/-- The constant `mask = 0x7F` of the `syscall` package. -/
def mask : Nat := 0x7F

/-- The constant `exited = 0x00`. -/
def exited : Nat := 0x00

/-- The constant `stopped = 0x7F`. -/
def stopped : Nat := 0x7F

/-- The constant `shift = 8`. -/
def shift : Nat := 8

/-- `Exited()` is `w&mask == exited`. -/
def Exited (w : Nat) : Bool := w &&& mask == exited

/-- `Signaled()` is `w&mask != stopped && w&mask != exited`. -/
def Signaled (w : Nat) : Bool := w &&& mask != stopped && w &&& mask != exited

/-- `Stopped()` is `w&0xFF == stopped`. -/
def Stopped (w : Nat) : Bool := w &&& 0xFF == stopped

/-- `Continued()` is `w == 0xFFFF`. -/
def Continued (w : Nat) : Bool := w == 0xFFFF

/-- `ExitStatus()` is `-1` unless `Exited()`, else `int(w>>shift) & 0xFF`. -/
def ExitStatus (w : Nat) : Int :=
  if !Exited w then -1 else (((w >>> shift) &&& 0xFF : Nat) : Int)

/-- `Signal()` is `-1` unless `Signaled()`, else `Signal(w & mask)`. -/
def Signal (w : Nat) : Int :=
  if !Signaled w then -1 else ((w &&& mask : Nat) : Int)

end WaitStatus

/-! ## Data model -/

/-- Modelled from the spec: the declaration of `ProcessInfo` is not part of `wait.go`;
it is the pair of a process identifier and a wait status, read by `wait.go` through the
fields `Pid` and `Status`. -/
structure ProcessInfo where
  Pid : Int
  Status : Nat
  deriving DecidableEq, Repr

/-- The zero value of `ProcessInfo`, held by `var info ProcessInfo`. -/
instance : Inhabited ProcessInfo := ⟨⟨0, 0⟩⟩

/-- A receive-only channel of notifications: `queue` lists what will be delivered, in
order; `closed` tells whether the channel is closed once the queue is drained. -/
structure Chan where
  queue : List ProcessInfo
  closed : Bool
  deriving DecidableEq, Repr

/-- An `os.Process` handle of a started process: its pid, the error component of
`proc.Wait()` and the error of `proc.Release()`. -/
structure Process where
  Pid : Int
  Wait : Option GoError
  Release : Option GoError
  deriving DecidableEq, Repr

/-- An `exec.Cmd` handle of a started command: its process and the error of `cmd.Wait()`. -/
structure Cmd where
  Process : Process
  Wait : Option GoError
  deriving DecidableEq, Repr

/-- What a call does: it returns an error value and leaves the channel in some state, or
it blocks forever receiving from an open channel on which nothing more arrives. -/
inductive Outcome where
  | returned (err : Option GoError) (ch : Chan)
  | blocked
  deriving DecidableEq, Repr

/-! ## The code of `wait.go` -/

/-- The function `convertWaitStatus`; `signame` is `syscall.Signal.String`. -/
def convertWaitStatus (signame : Int → String) (status : Nat) : Option GoError :=
  if WaitStatus.Signaled status then
    some (.errorf ("signal: " ++ signame (WaitStatus.Signal status)))
  else if WaitStatus.Exited status && WaitStatus.ExitStatus status != 0 then
    some (.exitError (WaitStatus.ExitStatus status))
  else
    none

/-- The loop `for info = range notifyCh { if cond(info) { break } }`.
`info` is the current value of the loop variable. Each received value is assigned to the
variable; the loop ends on `break` or when the channel is closed and drained, and blocks
when the channel is open and drained. On exit it yields the loop variable and the
notifications left in the channel. -/
def rangeLoop (cond : ProcessInfo → Bool) (info : ProcessInfo) (closed : Bool) :
    List ProcessInfo → Option (ProcessInfo × List ProcessInfo)
  | [] => if closed then some (info, []) else none
  | x :: xs => if cond x then some (x, xs) else rangeLoop cond x closed xs

/-- The function `WaitWrapper`. -/
def WaitWrapper (signame : Int → String) (usingReaper : Bool) (notifyCh : Chan)
    (cmd : Cmd) : Outcome :=
  if !usingReaper then
    .returned cmd.Wait notifyCh
  else
    match rangeLoop
        (fun info => info.Pid == cmd.Process.Pid &&
          (WaitStatus.Exited info.Status || WaitStatus.Signaled info.Status))
        default notifyCh.closed notifyCh.queue with
    | none => .blocked
    | some (info, rest) =>
      let err := convertWaitStatus signame info.Status
      let waitErr := cmd.Wait
      let err :=
        match waitErr with
        | some e =>
          if err == none && e.Error != "waitid: no child processes" then waitErr else err
        | none => err
      .returned err ⟨rest, notifyCh.closed⟩

/-- The function `ProcessWaitWrapper`. -/
def ProcessWaitWrapper (signame : Int → String) (usingReaper : Bool) (notifyCh : Chan)
    (proc : Process) : Outcome :=
  if !usingReaper then
    let waitErr := proc.Wait
    .returned waitErr notifyCh
  else
    match rangeLoop
        (fun info => info.Pid == proc.Pid &&
          (WaitStatus.Exited info.Status || WaitStatus.Signaled info.Status))
        default notifyCh.closed notifyCh.queue with
    | none => .blocked
    | some (info, rest) =>
      let err := convertWaitStatus signame info.Status
      let waitErr := proc.Release
      let err :=
        match waitErr with
        | some e =>
          if err == none && e.Error != "waitid: no child processes" then waitErr else err
        | none => err
      .returned err ⟨rest, notifyCh.closed⟩

/-! ## Vocabulary of the properties -/

/-- A notification matches a target pid when its pid is the target's and its status is
terminal (exited or signaled). -/
def matchesTarget (pid : Int) (info : ProcessInfo) : Bool :=
  info.Pid == pid && (WaitStatus.Exited info.Status || WaitStatus.Signaled info.Status)

/-- The reconciliation rule as the specification words it: the release error is
propagated when the converted status is success, the release produced an error and that
error's message is not the benign one; in every other case the converted status wins. -/
def reconcile (err release : Option GoError) : Option GoError :=
  match err, release with
  | none, some e => if e.Error = "waitid: no child processes" then none else some e
  | err, _ => err

/-- A signal name table used in examples (`SIGKILL` is "killed", `SIGTERM` is "terminated"). -/
def exampleSigname (s : Int) : String :=
  if s = 9 then "killed" else if s = 15 then "terminated" else "signal " ++ toString s

/-! ## Handles whose calls may not return -/

/-- What a call into the operating system does: it returns an error value, or it never
returns (`cmd.Wait()` and `proc.Wait()` block until the child has exited). -/
inductive Call where
  | returns (err : Option GoError)
  | hangs
  deriving DecidableEq, Repr

/-- A non-nil `*os.Process`: its pid and what `proc.Wait()` and `proc.Release()` do. -/
structure OSProcess where
  Pid : Int
  Wait : Call
  Release : Call
  deriving DecidableEq, Repr

/-- An `*exec.Cmd`: `Process` is nil until the command has been started; `Wait` is what
`cmd.Wait()` does. -/
structure OSCmd where
  Process : Option OSProcess
  Wait : Call
  deriving DecidableEq, Repr

/-- How the `range` loop ends when its condition may dereference a nil pointer. -/
inductive LoopExit where
  | done (info : ProcessInfo) (rest : List ProcessInfo)
  | blocked
  | panicked (rest : List ProcessInfo)
  deriving DecidableEq, Repr

/-- What a call of a wrapper does: it returns, it blocks forever in the receive, it
blocks forever in the call on the handle, or it panics. -/
inductive Run where
  | returned (err : Option GoError) (ch : Chan)
  | blocked
  | hung (ch : Chan)
  | panicked (ch : Chan)
  deriving DecidableEq, Repr

/-- The loop `for info = range notifyCh { if cond(info) { break } }` where evaluating
the condition may panic (`none`). -/
def rangeLoopRun (cond : ProcessInfo → Option Bool) (info : ProcessInfo) (closed : Bool) :
    List ProcessInfo → LoopExit
  | [] => if closed then .done info [] else .blocked
  | x :: xs =>
    match cond x with
    | none => .panicked xs
    | some true => .done x xs
    | some false => rangeLoopRun cond x closed xs

/-- The function `WaitWrapper` on a handle whose calls may not return. The condition
`info.Pid == cmd.Process.Pid && ...` reads `cmd.Process.Pid` first and panics when
`cmd.Process` is nil. -/
def WaitWrapperRun (signame : Int → String) (usingReaper : Bool) (notifyCh : Chan)
    (cmd : OSCmd) : Run :=
  if !usingReaper then
    match cmd.Wait with
    | .returns waitErr => .returned waitErr notifyCh
    | .hangs => .hung notifyCh
  else
    match rangeLoopRun
        (fun info =>
          match cmd.Process with
          | none => none
          | some process => some (info.Pid == process.Pid &&
              (WaitStatus.Exited info.Status || WaitStatus.Signaled info.Status)))
        default notifyCh.closed notifyCh.queue with
    | .blocked => .blocked
    | .panicked rest => .panicked ⟨rest, notifyCh.closed⟩
    | .done info rest =>
      let err := convertWaitStatus signame info.Status
      match cmd.Wait with
      | .hangs => .hung ⟨rest, notifyCh.closed⟩
      | .returns waitErr =>
        let err :=
          match waitErr with
          | some e =>
            if err == none && e.Error != "waitid: no child processes" then waitErr else err
          | none => err
        .returned err ⟨rest, notifyCh.closed⟩

/-- The function `ProcessWaitWrapper` on a non-nil handle whose calls may not return. -/
def ProcessWaitWrapperRun (signame : Int → String) (usingReaper : Bool) (notifyCh : Chan)
    (proc : OSProcess) : Run :=
  if !usingReaper then
    match proc.Wait with
    | .returns waitErr => .returned waitErr notifyCh
    | .hangs => .hung notifyCh
  else
    match rangeLoopRun
        (fun info => some (info.Pid == proc.Pid &&
          (WaitStatus.Exited info.Status || WaitStatus.Signaled info.Status)))
        default notifyCh.closed notifyCh.queue with
    | .blocked => .blocked
    | .panicked rest => .panicked ⟨rest, notifyCh.closed⟩
    | .done info rest =>
      let err := convertWaitStatus signame info.Status
      match proc.Release with
      | .hangs => .hung ⟨rest, notifyCh.closed⟩
      | .returns waitErr =>
        let err :=
          match waitErr with
          | some e =>
            if err == none && e.Error != "waitid: no child processes" then waitErr else err
          | none => err
        .returned err ⟨rest, notifyCh.closed⟩

/-- A process handle whose calls return, as a handle whose calls may not. -/
def Process.toOS (proc : Process) : OSProcess :=
  ⟨proc.Pid, .returns proc.Wait, .returns proc.Release⟩

/-- A started command whose calls return, as a handle whose calls may not. -/
def Cmd.toOS (cmd : Cmd) : OSCmd :=
  ⟨some cmd.Process.toOS, .returns cmd.Wait⟩

/-- An outcome of the coarse embedding as a run of the finer one. -/
def Outcome.toRun : Outcome → Run
  | .returned err ch => .returned err ch
  | .blocked => .blocked

/-! ## Auxiliary facts -/

/-- The inline condition of both loops is `matchesTarget`. -/
theorem loopCond_eq (pid : Int) :
    (fun info : ProcessInfo => info.Pid == pid &&
      (WaitStatus.Exited info.Status || WaitStatus.Signaled info.Status)) = matchesTarget pid :=
  rfl

/-- The inline reconciliation of both wrappers is `reconcile`. -/
theorem inline_reconcile_eq (err waitErr : Option GoError) :
    (match waitErr with
      | some e =>
        if err == none && e.Error != "waitid: no child processes" then waitErr else err
      | none => err) = reconcile err waitErr := by
  cases err <;> cases waitErr <;> simp [reconcile]

/-- The loop stops at the first value satisfying the condition. -/
theorem rangeLoop_first (cond : ProcessInfo → Bool) (closed : Bool)
    (pre : List ProcessInfo) (m : ProcessInfo) (post : List ProcessInfo)
    (hpre : ∀ y ∈ pre, cond y = false) (hm : cond m = true) (info : ProcessInfo) :
    rangeLoop cond info closed (pre ++ m :: post) = some (m, post) := by
  induction pre generalizing info with
  | nil => simp [rangeLoop, hm]
  | cons y ys ih =>
    have hy : cond y = false := hpre y (List.mem_cons_self _ _)
    have hys : ∀ z ∈ ys, cond z = false := fun z hz => hpre z (List.mem_cons_of_mem _ hz)
    simp [rangeLoop, hy, ih hys]

/-- On a closed channel without a satisfying value the loop drains the channel and keeps
the last value received, or the initial one when nothing was received. -/
theorem rangeLoop_drained (cond : ProcessInfo → Bool) (q : List ProcessInfo)
    (hq : ∀ y ∈ q, cond y = false) (info : ProcessInfo) :
    rangeLoop cond info true q = some (q.getLast?.getD info, []) := by
  induction q generalizing info with
  | nil => simp [rangeLoop]
  | cons y ys ih =>
    have hy : cond y = false := hq y (List.mem_cons_self _ _)
    have hys : ∀ z ∈ ys, cond z = false := fun z hz => hq z (List.mem_cons_of_mem _ hz)
    simp only [rangeLoop, hy, ih hys]
    cases ys with
    | nil => simp
    | cons z zs =>
      cases h : (z :: zs).getLast? with
      | none => simp [List.getLast?_eq_none_iff] at h
      | some l => simp [List.getLast?_cons_cons, h]

/-- On an open channel without a satisfying value the loop blocks. -/
theorem rangeLoop_starved (cond : ProcessInfo → Bool) (q : List ProcessInfo)
    (hq : ∀ y ∈ q, cond y = false) (info : ProcessInfo) :
    rangeLoop cond info false q = none := by
  induction q generalizing info with
  | nil => simp [rangeLoop]
  | cons y ys ih =>
    have hy : cond y = false := hq y (List.mem_cons_self _ _)
    have hys : ∀ z ∈ ys, cond z = false := fun z hz => hq z (List.mem_cons_of_mem _ hz)
    simp [rangeLoop, hy, ih hys]

/-- A queue holding a satisfying value splits at the first one. -/
theorem split_at_first (cond : ProcessInfo → Bool) (q : List ProcessInfo)
    (h : ∃ x ∈ q, cond x = true) :
    ∃ pre m post, q = pre ++ m :: post ∧ (∀ y ∈ pre, cond y = false) ∧ cond m = true := by
  induction q with
  | nil => simp at h
  | cons y ys ih =>
    by_cases hy : cond y = true
    · exact ⟨[], y, ys, rfl, by simp, hy⟩
    · have hy2 : cond y = false := by simpa using hy
      have h2 : ∃ x ∈ ys, cond x = true := by
        obtain ⟨x, hx, hc⟩ := h
        rcases List.mem_cons.mp hx with rfl | hx
        · exact absurd hc hy
        · exact ⟨x, hx, hc⟩
      obtain ⟨pre, m, post, hq, hpre, hm⟩ := ih h2
      refine ⟨y :: pre, m, post, by simp [hq], ?_, hm⟩
      intro z hz
      rcases List.mem_cons.mp hz with rfl | hz
      · exact hy2
      · exact hpre z hz

/-- Reaper mode of `WaitWrapper`, in terms of the loop and the reconciliation. -/
theorem WaitWrapper_reaper (signame : Int → String) (ch : Chan) (cmd : Cmd) :
    WaitWrapper signame true ch cmd =
      match rangeLoop (matchesTarget cmd.Process.Pid) default ch.closed ch.queue with
      | none => .blocked
      | some (info, rest) =>
        .returned (reconcile (convertWaitStatus signame info.Status) cmd.Wait)
          ⟨rest, ch.closed⟩ := by
  simp only [WaitWrapper, loopCond_eq, inline_reconcile_eq]
  rfl

/-- Reaper mode of `ProcessWaitWrapper`, in terms of the loop and the reconciliation. -/
theorem ProcessWaitWrapper_reaper (signame : Int → String) (ch : Chan) (proc : Process) :
    ProcessWaitWrapper signame true ch proc =
      match rangeLoop (matchesTarget proc.Pid) default ch.closed ch.queue with
      | none => .blocked
      | some (info, rest) =>
        .returned (reconcile (convertWaitStatus signame info.Status) proc.Release)
          ⟨rest, ch.closed⟩ := by
  simp only [ProcessWaitWrapper, loopCond_eq, inline_reconcile_eq]
  rfl

/-- A matching notification behind a prefix without one ends the loop of `WaitWrapper`. -/
theorem WaitWrapper_first (signame : Int → String) (pre : List ProcessInfo)
    (m : ProcessInfo) (post : List ProcessInfo) (closed : Bool) (cmd : Cmd)
    (hpre : ∀ y ∈ pre, matchesTarget cmd.Process.Pid y = false)
    (hm : matchesTarget cmd.Process.Pid m = true) :
    WaitWrapper signame true ⟨pre ++ m :: post, closed⟩ cmd =
      .returned (reconcile (convertWaitStatus signame m.Status) cmd.Wait) ⟨post, closed⟩ := by
  rw [WaitWrapper_reaper]
  simp only [rangeLoop_first _ closed pre m post hpre hm]

/-- A matching notification behind a prefix without one ends the loop of
`ProcessWaitWrapper`. -/
theorem ProcessWaitWrapper_first (signame : Int → String) (pre : List ProcessInfo)
    (m : ProcessInfo) (post : List ProcessInfo) (closed : Bool) (proc : Process)
    (hpre : ∀ y ∈ pre, matchesTarget proc.Pid y = false)
    (hm : matchesTarget proc.Pid m = true) :
    ProcessWaitWrapper signame true ⟨pre ++ m :: post, closed⟩ proc =
      .returned (reconcile (convertWaitStatus signame m.Status) proc.Release)
        ⟨post, closed⟩ := by
  rw [ProcessWaitWrapper_reaper]
  simp only [rangeLoop_first _ closed pre m post hpre hm]

/-- On a closed channel without a match `WaitWrapper` converts the last status received. -/
theorem WaitWrapper_drained (signame : Int → String) (q : List ProcessInfo) (cmd : Cmd)
    (hq : ∀ y ∈ q, matchesTarget cmd.Process.Pid y = false) :
    WaitWrapper signame true ⟨q, true⟩ cmd =
      .returned (reconcile (convertWaitStatus signame (q.getLast?.getD default).Status)
        cmd.Wait) ⟨[], true⟩ := by
  rw [WaitWrapper_reaper]
  simp only [rangeLoop_drained _ q hq]

/-- On a closed channel without a match `ProcessWaitWrapper` converts the last status
received. -/
theorem ProcessWaitWrapper_drained (signame : Int → String) (q : List ProcessInfo)
    (proc : Process) (hq : ∀ y ∈ q, matchesTarget proc.Pid y = false) :
    ProcessWaitWrapper signame true ⟨q, true⟩ proc =
      .returned (reconcile (convertWaitStatus signame (q.getLast?.getD default).Status)
        proc.Release) ⟨[], true⟩ := by
  rw [ProcessWaitWrapper_reaper]
  simp only [rangeLoop_drained _ q hq]

/-- On an open channel without a match `WaitWrapper` blocks. -/
theorem WaitWrapper_starved (signame : Int → String) (q : List ProcessInfo) (cmd : Cmd)
    (hq : ∀ y ∈ q, matchesTarget cmd.Process.Pid y = false) :
    WaitWrapper signame true ⟨q, false⟩ cmd = .blocked := by
  rw [WaitWrapper_reaper]
  simp only [rangeLoop_starved _ q hq]

/-- On an open channel without a match `ProcessWaitWrapper` blocks. -/
theorem ProcessWaitWrapper_starved (signame : Int → String) (q : List ProcessInfo)
    (proc : Process) (hq : ∀ y ∈ q, matchesTarget proc.Pid y = false) :
    ProcessWaitWrapper signame true ⟨q, false⟩ proc = .blocked := by
  rw [ProcessWaitWrapper_reaper]
  simp only [rangeLoop_starved _ q hq]

/-- The low seven bits of a status are its remainder modulo 128. -/
theorem and_mask_eq_mod (w : Nat) : w &&& WaitStatus.mask = w % 128 := by
  have h : WaitStatus.mask = 2 ^ 7 - 1 := by decide
  rw [h, Nat.and_pow_two_sub_one_eq_mod]

/-- The low eight bits of a number are its remainder modulo 256. -/
theorem and_255_eq_mod (w : Nat) : w &&& 0xFF = w % 256 := by
  have h : (0xFF : Nat) = 2 ^ 8 - 1 := by decide
  rw [h, Nat.and_pow_two_sub_one_eq_mod]

/-- The status is exited exactly when its low seven bits are clear. -/
theorem Exited_iff (w : Nat) : WaitStatus.Exited w = true ↔ w % 128 = 0 := by
  simp [WaitStatus.Exited, and_mask_eq_mod, WaitStatus.exited]

/-- The status is signaled exactly when its low seven bits are neither 0 nor 127. -/
theorem Signaled_iff (w : Nat) :
    WaitStatus.Signaled w = true ↔ w % 128 ≠ 127 ∧ w % 128 ≠ 0 := by
  simp [WaitStatus.Signaled, and_mask_eq_mod, WaitStatus.exited, WaitStatus.stopped]

/-- An exited status is not signaled. -/
theorem Signaled_of_Exited (w : Nat) (h : WaitStatus.Exited w = true) :
    WaitStatus.Signaled w = false := by
  rw [Exited_iff] at h
  cases hs : WaitStatus.Signaled w with
  | false => rfl
  | true => rw [Signaled_iff] at hs; exact absurd h hs.2

/-- The exit status of an exited status is bits 8 to 15. -/
theorem ExitStatus_of_Exited (w : Nat) (h : WaitStatus.Exited w = true) :
    WaitStatus.ExitStatus w = ((w / 256 % 256 : Nat) : Int) := by
  simp [WaitStatus.ExitStatus, h, WaitStatus.shift, and_255_eq_mod, Nat.shiftRight_eq_div_pow]

/-- The signal of a signaled status is its low seven bits. -/
theorem Signal_of_Signaled (w : Nat) (h : WaitStatus.Signaled w = true) :
    WaitStatus.Signal w = ((w % 128 : Nat) : Int) := by
  simp [WaitStatus.Signal, h, and_mask_eq_mod]

/-- The conversion of an exited status. -/
theorem convert_of_Exited (signame : Int → String) (w : Nat)
    (h : WaitStatus.Exited w = true) :
    convertWaitStatus signame w =
      if WaitStatus.ExitStatus w = 0 then none
      else some (.exitError (WaitStatus.ExitStatus w)) := by
  simp only [convertWaitStatus, Signaled_of_Exited w h, h]
  by_cases hz : WaitStatus.ExitStatus w = 0 <;> simp [hz]

/-- The conversion of a signaled status. -/
theorem convert_of_Signaled (signame : Int → String) (w : Nat)
    (h : WaitStatus.Signaled w = true) :
    convertWaitStatus signame w =
      some (.errorf ("signal: " ++ signame (WaitStatus.Signal w))) := by
  simp [convertWaitStatus, h]

/-- The conversion of a status that is neither exited nor signaled is success. -/
theorem convert_of_nonterminal (signame : Int → String) (w : Nat)
    (he : WaitStatus.Exited w = false) (hs : WaitStatus.Signaled w = false) :
    convertWaitStatus signame w = none := by
  simp [convertWaitStatus, he, hs]

/-- A stopped or continued status is neither exited nor signaled, so a notification
carrying it matches no target. -/
theorem not_matches_of_Stopped_or_Continued (pid : Int) (info : ProcessInfo)
    (h : WaitStatus.Stopped info.Status = true ∨ WaitStatus.Continued info.Status = true) :
    matchesTarget pid info = false := by
  have hmod : info.Status % 128 = 127 := by
    rcases h with h | h
    · have h2 : info.Status % 256 = 127 := by
        simpa [WaitStatus.Stopped, and_255_eq_mod, WaitStatus.stopped] using h
      omega
    · have h2 : info.Status = 65535 := by simpa [WaitStatus.Continued] using h
      omega
  have he : WaitStatus.Exited info.Status = false := by
    cases hx : WaitStatus.Exited info.Status with
    | false => rfl
    | true => rw [Exited_iff] at hx; omega
  have hs : WaitStatus.Signaled info.Status = false := by
    cases hx : WaitStatus.Signaled info.Status with
    | false => rfl
    | true => rw [Signaled_iff] at hx; omega
  simp [matchesTarget, he, hs]

/-- A notification that does not match has another pid or a non-terminal status. -/
theorem not_matches_cases (pid : Int) (info : ProcessInfo)
    (h : matchesTarget pid info = false) :
    info.Pid ≠ pid ∨
      (WaitStatus.Exited info.Status = false ∧ WaitStatus.Signaled info.Status = false) := by
  by_cases hp : info.Pid = pid
  · right
    simpa [matchesTarget, hp] using h
  · exact Or.inl hp

/-- A non-nil converted status wins the reconciliation. -/
theorem reconcile_some (e : GoError) (release : Option GoError) :
    reconcile (some e) release = some e := by
  cases release <;> rfl

/-- The values the reconciliation can produce: success, an `ExitError`, a signal
failure or the release error. -/
theorem reconcile_classes (signame : Int → String) (w : Nat) (release : Option GoError) :
    reconcile (convertWaitStatus signame w) release = none ∨
      (∃ c, reconcile (convertWaitStatus signame w) release = some (.exitError c)) ∨
      (∃ s, reconcile (convertWaitStatus signame w) release =
        some (.errorf ("signal: " ++ signame s))) ∨
      reconcile (convertWaitStatus signame w) release = release := by
  by_cases hs : WaitStatus.Signaled w = true
  · rw [convert_of_Signaled signame w hs, reconcile_some]
    exact Or.inr (Or.inr (Or.inl ⟨_, rfl⟩))
  · have hs2 : WaitStatus.Signaled w = false := by simpa using hs
    by_cases hx : WaitStatus.Exited w = true
    · rw [convert_of_Exited signame w hx]
      by_cases hz : WaitStatus.ExitStatus w = 0
      · simp only [hz, if_true]
        cases release with
        | none => exact Or.inl rfl
        | some r =>
          by_cases hr : r.Error = "waitid: no child processes"
          · left; simp [reconcile, hr]
          · right; right; right; simp [reconcile, hr]
      · simp only [hz, if_false, reconcile_some]
        exact Or.inr (Or.inl ⟨_, rfl⟩)
    · have hx2 : WaitStatus.Exited w = false := by simpa using hx
      rw [convert_of_nonterminal signame w hx2 hs2]
      cases release with
      | none => exact Or.inl rfl
      | some r =>
        by_cases hr : r.Error = "waitid: no child processes"
        · left; simp [reconcile, hr]
        · right; right; right; simp [reconcile, hr]

/-- With a condition that cannot panic the finer loop is the coarse loop. -/
theorem rangeLoopRun_total (cond : ProcessInfo → Bool) (closed : Bool)
    (q : List ProcessInfo) (info : ProcessInfo) :
    rangeLoopRun (fun x => some (cond x)) info closed q =
      match rangeLoop cond info closed q with
      | none => .blocked
      | some (i, rest) => .done i rest := by
  induction q generalizing info with
  | nil => cases closed <;> simp [rangeLoopRun, rangeLoop]
  | cons y ys ih =>
    cases hy : cond y <;> simp [rangeLoopRun, rangeLoop, hy, ih]

/-- Reaper mode of `WaitWrapperRun` on a started command. -/
theorem WaitWrapperRun_started (signame : Int → String) (ch : Chan) (cmd : OSCmd)
    (process : OSProcess) (h : cmd.Process = some process) :
    WaitWrapperRun signame true ch cmd =
      match rangeLoop (matchesTarget process.Pid) default ch.closed ch.queue with
      | none => .blocked
      | some (info, rest) =>
        match cmd.Wait with
        | .hangs => .hung ⟨rest, ch.closed⟩
        | .returns waitErr =>
          .returned (reconcile (convertWaitStatus signame info.Status) waitErr)
            ⟨rest, ch.closed⟩ := by
  cases cmd with
  | mk P W =>
    simp only at h
    subst h
    simp only [WaitWrapperRun, Bool.not_true, Bool.false_eq_true, if_false]
    rw [rangeLoopRun_total, loopCond_eq]
    cases rangeLoop (matchesTarget process.Pid) default ch.closed ch.queue with
    | none => rfl
    | some pr =>
      cases W with
      | hangs => rfl
      | returns waitErr => simp only [inline_reconcile_eq]

/-- Reaper mode of `ProcessWaitWrapperRun`. -/
theorem ProcessWaitWrapperRun_reaper (signame : Int → String) (ch : Chan)
    (proc : OSProcess) :
    ProcessWaitWrapperRun signame true ch proc =
      match rangeLoop (matchesTarget proc.Pid) default ch.closed ch.queue with
      | none => .blocked
      | some (info, rest) =>
        match proc.Release with
        | .hangs => .hung ⟨rest, ch.closed⟩
        | .returns waitErr =>
          .returned (reconcile (convertWaitStatus signame info.Status) waitErr)
            ⟨rest, ch.closed⟩ := by
  simp only [ProcessWaitWrapperRun, Bool.not_true, Bool.false_eq_true, if_false]
  rw [rangeLoopRun_total, loopCond_eq]
  cases rangeLoop (matchesTarget proc.Pid) default ch.closed ch.queue with
  | none => rfl
  | some pr =>
    cases proc.Release with
    | hangs => rfl
    | returns waitErr => simp only [inline_reconcile_eq]

/-- On a started command whose calls return, `WaitWrapperRun` is `WaitWrapper`. -/
theorem WaitWrapperRun_toOS (signame : Int → String) (usingReaper : Bool) (ch : Chan)
    (cmd : Cmd) :
    WaitWrapperRun signame usingReaper ch cmd.toOS =
      (WaitWrapper signame usingReaper ch cmd).toRun := by
  cases usingReaper with
  | false => rfl
  | true =>
    rw [WaitWrapperRun_started signame ch cmd.toOS cmd.Process.toOS rfl, WaitWrapper_reaper]
    show (match rangeLoop (matchesTarget cmd.Process.Pid) default ch.closed ch.queue with
      | none => Run.blocked
      | some (info, rest) =>
        Run.returned (reconcile (convertWaitStatus signame info.Status) cmd.Wait)
          ⟨rest, ch.closed⟩) = _
    cases rangeLoop (matchesTarget cmd.Process.Pid) default ch.closed ch.queue <;> rfl

/-- On a handle whose calls return, `ProcessWaitWrapperRun` is `ProcessWaitWrapper`. -/
theorem ProcessWaitWrapperRun_toOS (signame : Int → String) (usingReaper : Bool)
    (ch : Chan) (proc : Process) :
    ProcessWaitWrapperRun signame usingReaper ch proc.toOS =
      (ProcessWaitWrapper signame usingReaper ch proc).toRun := by
  cases usingReaper with
  | false => rfl
  | true =>
    rw [ProcessWaitWrapperRun_reaper, ProcessWaitWrapper_reaper]
    show (match rangeLoop (matchesTarget proc.Pid) default ch.closed ch.queue with
      | none => Run.blocked
      | some (info, rest) =>
        Run.returned (reconcile (convertWaitStatus signame info.Status) proc.Release)
          ⟨rest, ch.closed⟩) = _
    cases rangeLoop (matchesTarget proc.Pid) default ch.closed ch.queue <;> rfl

/-- On a command that was never started the loop panics at the first notification. -/
theorem WaitWrapperRun_unstarted (signame : Int → String) (x : ProcessInfo)
    (xs : List ProcessInfo) (closed : Bool) (cmd : OSCmd) (h : cmd.Process = none) :
    WaitWrapperRun signame true ⟨x :: xs, closed⟩ cmd = .panicked ⟨xs, closed⟩ := by
  cases cmd with
  | mk P W =>
    simp only at h
    subst h
    simp [WaitWrapperRun, rangeLoopRun]

/-! ## Properties of the wait emulation -/

/-- C1, pid isolation. In reaper mode, a stream that holds a notification matching the
target (same pid, status exited or signaled) splits at the first such notification `m`;
both wrappers return the conversion of the status of `m` reconciled with the release
outcome and leave exactly what follows `m` unread. The result is the same whatever
non-matching notifications precede `m` and whatever follows it. A notification before
`m` has another pid or a status that is neither exited nor signaled; stopped and
continued statuses are of that kind. -/
theorem pid_isolation (signame : Int → String) (pid : Int) (ch : Chan)
    (h : ∃ x ∈ ch.queue, matchesTarget pid x = true) :
    ∃ pre m post, ch.queue = pre ++ m :: post ∧
      (∀ y ∈ pre, matchesTarget pid y = false) ∧ matchesTarget pid m = true ∧
      (∀ y ∈ pre, y.Pid ≠ pid ∨
        (WaitStatus.Exited y.Status = false ∧ WaitStatus.Signaled y.Status = false)) ∧
      (∀ y : ProcessInfo,
        WaitStatus.Stopped y.Status = true ∨ WaitStatus.Continued y.Status = true →
        matchesTarget pid y = false) ∧
      (∀ cmd : Cmd, cmd.Process.Pid = pid →
        WaitWrapper signame true ch cmd =
          .returned (reconcile (convertWaitStatus signame m.Status) cmd.Wait)
            ⟨post, ch.closed⟩ ∧
        ∀ pre2 post2 closed2, (∀ y ∈ pre2, matchesTarget pid y = false) →
          WaitWrapper signame true ⟨pre2 ++ m :: post2, closed2⟩ cmd =
            .returned (reconcile (convertWaitStatus signame m.Status) cmd.Wait)
              ⟨post2, closed2⟩) ∧
      (∀ proc : Process, proc.Pid = pid →
        ProcessWaitWrapper signame true ch proc =
          .returned (reconcile (convertWaitStatus signame m.Status) proc.Release)
            ⟨post, ch.closed⟩ ∧
        ∀ pre2 post2 closed2, (∀ y ∈ pre2, matchesTarget pid y = false) →
          ProcessWaitWrapper signame true ⟨pre2 ++ m :: post2, closed2⟩ proc =
            .returned (reconcile (convertWaitStatus signame m.Status) proc.Release)
              ⟨post2, closed2⟩) := by
  obtain ⟨pre, m, post, hq, hpre, hm⟩ := split_at_first (matchesTarget pid) ch.queue h
  refine ⟨pre, m, post, hq, hpre, hm, fun y hy => not_matches_cases pid y (hpre y hy),
    fun y hy => not_matches_of_Stopped_or_Continued pid y hy, ?_, ?_⟩
  · intro cmd hpid
    subst hpid
    refine ⟨?_, ?_⟩
    · have hch : ch = ⟨pre ++ m :: post, ch.closed⟩ := by
        cases ch
        simp only [Chan.mk.injEq, and_true]
        exact hq
      rw [hch]
      exact WaitWrapper_first signame pre m post _ cmd hpre hm
    · intro pre2 post2 closed2 hpre2
      exact WaitWrapper_first signame pre2 m post2 closed2 cmd hpre2 hm
  · intro proc hpid
    subst hpid
    refine ⟨?_, ?_⟩
    · have hch : ch = ⟨pre ++ m :: post, ch.closed⟩ := by
        cases ch
        simp only [Chan.mk.injEq, and_true]
        exact hq
      rw [hch]
      exact ProcessWaitWrapper_first signame pre m post _ proc hpre hm
    · intro pre2 post2 closed2 hpre2
      exact ProcessWaitWrapper_first signame pre2 m post2 closed2 proc hpre2 hm

/-- C4, non-masking of real errors. In reaper mode, when the status of the matched
notification converts to an error `e`, both wrappers return exactly `e`, whatever the
release call reports (the release outcome is a free field of the handle); `e` is an
`ExitError` with a non-zero code or a signal failure. -/
theorem non_masking (signame : Int → String) (pid : Int) (pre : List ProcessInfo)
    (m : ProcessInfo) (post : List ProcessInfo) (closed : Bool) (cmd : Cmd) (proc : Process)
    (e : GoError) (hcmd : cmd.Process.Pid = pid) (hproc : proc.Pid = pid)
    (hpre : ∀ y ∈ pre, matchesTarget pid y = false) (hm : matchesTarget pid m = true)
    (he : convertWaitStatus signame m.Status = some e) :
    WaitWrapper signame true ⟨pre ++ m :: post, closed⟩ cmd = .returned (some e) ⟨post, closed⟩ ∧
    ProcessWaitWrapper signame true ⟨pre ++ m :: post, closed⟩ proc =
      .returned (some e) ⟨post, closed⟩ ∧
    ((∃ c : Int, c ≠ 0 ∧ e = .exitError c) ∨
      (∃ s : Int, e = .errorf ("signal: " ++ signame s))) := by
  subst hcmd
  refine ⟨?_, ?_, ?_⟩
  · rw [WaitWrapper_first signame pre m post closed cmd hpre hm, he, reconcile_some]
  · rw [ProcessWaitWrapper_first signame pre m post closed proc (hproc ▸ hpre) (hproc ▸ hm),
      he, reconcile_some]
  · by_cases hs : WaitStatus.Signaled m.Status = true
    · right
      rw [convert_of_Signaled signame _ hs] at he
      exact ⟨_, (Option.some.inj he).symm⟩
    · left
      have hs2 : WaitStatus.Signaled m.Status = false := by simpa using hs
      by_cases hx : WaitStatus.Exited m.Status = true
      · rw [convert_of_Exited signame _ hx] at he
        by_cases hz : WaitStatus.ExitStatus m.Status = 0
        · simp [hz] at he
        · simp only [hz, if_false] at he
          exact ⟨_, hz, (Option.some.inj he).symm⟩
      · have hx2 : WaitStatus.Exited m.Status = false := by simpa using hx
        rw [convert_of_nonterminal signame _ hx2 hs2] at he
        exact absurd he (by simp)

/-- C5, release masking. In reaper mode, when the matched notification has status
exited with code 0, both wrappers return success if the release call reports no error
or an error whose text is exactly "waitid: no child processes", and return the release
error itself if its text is anything else. -/
theorem release_masking (signame : Int → String) (pid : Int) (pre : List ProcessInfo)
    (m : ProcessInfo) (post : List ProcessInfo) (closed : Bool) (cmd : Cmd) (proc : Process)
    (hcmd : cmd.Process.Pid = pid) (hproc : proc.Pid = pid)
    (hpre : ∀ y ∈ pre, matchesTarget pid y = false) (hpid : m.Pid = pid)
    (hx : WaitStatus.Exited m.Status = true) (hz : WaitStatus.ExitStatus m.Status = 0) :
    (cmd.Wait = none →
      WaitWrapper signame true ⟨pre ++ m :: post, closed⟩ cmd = .returned none ⟨post, closed⟩) ∧
    (∀ r, cmd.Wait = some r → r.Error = "waitid: no child processes" →
      WaitWrapper signame true ⟨pre ++ m :: post, closed⟩ cmd = .returned none ⟨post, closed⟩) ∧
    (∀ r, cmd.Wait = some r → r.Error ≠ "waitid: no child processes" →
      WaitWrapper signame true ⟨pre ++ m :: post, closed⟩ cmd =
        .returned (some r) ⟨post, closed⟩) ∧
    (proc.Release = none →
      ProcessWaitWrapper signame true ⟨pre ++ m :: post, closed⟩ proc =
        .returned none ⟨post, closed⟩) ∧
    (∀ r, proc.Release = some r → r.Error = "waitid: no child processes" →
      ProcessWaitWrapper signame true ⟨pre ++ m :: post, closed⟩ proc =
        .returned none ⟨post, closed⟩) ∧
    (∀ r, proc.Release = some r → r.Error ≠ "waitid: no child processes" →
      ProcessWaitWrapper signame true ⟨pre ++ m :: post, closed⟩ proc =
        .returned (some r) ⟨post, closed⟩) := by
  have hm : matchesTarget pid m = true := by simp [matchesTarget, hpid, hx]
  have hc : convertWaitStatus signame m.Status = none := by
    rw [convert_of_Exited signame _ hx]; simp [hz]
  have hW := WaitWrapper_first signame pre m post closed cmd (hcmd ▸ hpre) (hcmd ▸ hm)
  have hP := ProcessWaitWrapper_first signame pre m post closed proc (hproc ▸ hpre)
    (hproc ▸ hm)
  rw [hc] at hW hP
  refine ⟨?_, ?_, ?_, ?_, ?_, ?_⟩
  · intro h; rw [hW, h]; rfl
  · intro r h hr; rw [hW, h]; simp [reconcile, hr]
  · intro r h hr; rw [hW, h]; simp [reconcile, hr]
  · intro h; rw [hP, h]; rfl
  · intro r h hr; rw [hP, h]; simp [reconcile, hr]
  · intro r h hr; rw [hP, h]; simp [reconcile, hr]

/-- C7, fallback equivalence. With `usingReaper = false`, `WaitWrapper` returns the
result of `cmd.Wait()` and `ProcessWaitWrapper` the error of `proc.Wait()`, unchanged,
and the channel is left as it was: nothing is received, converted or reconciled. In
particular a native error with the text "waitid: no child processes" is returned as is. -/
theorem fallback_equivalence (signame : Int → String) (ch : Chan) (cmd : Cmd)
    (proc : Process) :
    WaitWrapper signame false ch cmd = .returned cmd.Wait ch ∧
    ProcessWaitWrapper signame false ch proc = .returned proc.Wait ch ∧
    WaitWrapper signame false ch ⟨cmd.Process, some (.osError "waitid: no child processes")⟩ =
      .returned (some (.osError "waitid: no child processes")) ch ∧
    ProcessWaitWrapper signame false ch
        ⟨proc.Pid, some (.osError "waitid: no child processes"), proc.Release⟩ =
      .returned (some (.osError "waitid: no child processes")) ch :=
  ⟨rfl, rfl, rfl, rfl⟩

/-- C8, entry-point equivalence. In reaper mode, for every stream, when the two handles
have the same pid and `cmd.Wait()` and `proc.Release()` report the same outcome,
`ProcessWaitWrapper` and `WaitWrapper` have the same outcome: both block, or both return
the same error and leave the same notifications unread. -/
theorem entry_point_equivalence (signame : Int → String) (ch : Chan) (cmd : Cmd)
    (proc : Process) (hpid : cmd.Process.Pid = proc.Pid) (hrel : cmd.Wait = proc.Release) :
    ProcessWaitWrapper signame true ch proc = WaitWrapper signame true ch cmd := by
  rw [WaitWrapper_reaper, ProcessWaitWrapper_reaper, hpid, hrel]

/-- C2, exit-code round trip. For every exit code `c` in 0..255 the status `c * 256`
reads as exited with code `c`; every status that reads as exited with code `c` is
converted to no error when `c = 0` and otherwise to the `ExitError` with `ExitCode = c`,
whose `Error()` text is "exit status " followed by the decimal digits of `c`; a
reaper-mode wait matching such a notification, with a release that reports no error,
returns the same value. -/
theorem exit_code_round_trip (signame : Int → String) (c : Nat) (hc : c ≤ 255) :
    WaitStatus.Exited (c * 256) = true ∧ WaitStatus.ExitStatus (c * 256) = (c : Int) ∧
    (GoError.exitError (c : Int)).Error = "exit status " ++ Nat.repr c ∧
    ∀ w : Nat, WaitStatus.Exited w = true → WaitStatus.ExitStatus w = (c : Int) →
      convertWaitStatus signame w = (if c = 0 then none else some (.exitError (c : Int))) ∧
      ∀ (pre post : List ProcessInfo) (closed : Bool) (cmd : Cmd) (proc : Process),
        (∀ y ∈ pre, matchesTarget cmd.Process.Pid y = false) →
        proc.Pid = cmd.Process.Pid → cmd.Wait = none → proc.Release = none →
        WaitWrapper signame true ⟨pre ++ ⟨cmd.Process.Pid, w⟩ :: post, closed⟩ cmd =
          .returned (if c = 0 then none else some (.exitError (c : Int))) ⟨post, closed⟩ ∧
        ProcessWaitWrapper signame true ⟨pre ++ ⟨cmd.Process.Pid, w⟩ :: post, closed⟩ proc =
          .returned (if c = 0 then none else some (.exitError (c : Int))) ⟨post, closed⟩ := by
  have hx : WaitStatus.Exited (c * 256) = true := by
    rw [Exited_iff]; omega
  refine ⟨hx, ?_, rfl, ?_⟩
  · rw [ExitStatus_of_Exited _ hx]
    congr 1
    omega
  · intro w hw hes
    have hconv : convertWaitStatus signame w =
        (if c = 0 then none else some (.exitError (c : Int))) := by
      rw [convert_of_Exited signame w hw, hes]
      by_cases h0 : c = 0
      · simp [h0]
      · have h1 : (c : Int) ≠ 0 := by exact_mod_cast h0
        simp [h0, h1]
    refine ⟨hconv, ?_⟩
    intro pre post closed cmd proc hpre hpid hwait hrel
    have hm : matchesTarget cmd.Process.Pid ⟨cmd.Process.Pid, w⟩ = true := by
      simp [matchesTarget, hw]
    refine ⟨?_, ?_⟩
    · rw [WaitWrapper_first signame pre _ post closed cmd hpre hm, hwait, hconv]
      cases hcv : (if c = 0 then none else some (GoError.exitError (c : Int))) <;> rfl
    · rw [ProcessWaitWrapper_first signame pre _ post closed proc (hpid ▸ hpre) (hpid ▸ hm),
        hrel, hconv]
      cases hcv : (if c = 0 then none else some (GoError.exitError (c : Int))) <;> rfl

/-- C3, signal classification. A status that reads as signaled with signal `S` is
converted to the `fmt.Errorf` value whose text is "signal: " followed by the name of
`S`: it is neither the nil error nor an `ExitError`. A reaper-mode wait matching such a
notification returns that failure whatever the release call reports. Every signal
number from 1 to 126, alone or with the core-dump bit, is such a status. -/
theorem signal_classification (signame : Int → String) (w : Nat) (S : Int)
    (hs : WaitStatus.Signaled w = true) (hS : WaitStatus.Signal w = S) :
    convertWaitStatus signame w = some (.errorf ("signal: " ++ signame S)) ∧
    convertWaitStatus signame w ≠ none ∧
    (∀ c, convertWaitStatus signame w ≠ some (.exitError c)) ∧
    (GoError.errorf ("signal: " ++ signame S)).Error = "signal: " ++ signame S ∧
    (∀ (pre post : List ProcessInfo) (closed : Bool) (cmd : Cmd) (proc : Process),
      (∀ y ∈ pre, matchesTarget cmd.Process.Pid y = false) → proc.Pid = cmd.Process.Pid →
      WaitWrapper signame true ⟨pre ++ ⟨cmd.Process.Pid, w⟩ :: post, closed⟩ cmd =
        .returned (some (.errorf ("signal: " ++ signame S))) ⟨post, closed⟩ ∧
      ProcessWaitWrapper signame true ⟨pre ++ ⟨cmd.Process.Pid, w⟩ :: post, closed⟩ proc =
        .returned (some (.errorf ("signal: " ++ signame S))) ⟨post, closed⟩) ∧
    (∀ s : Nat, 1 ≤ s → s ≤ 126 →
      WaitStatus.Signaled s = true ∧ WaitStatus.Signal s = (s : Int) ∧
      WaitStatus.Signaled (s + 128) = true ∧ WaitStatus.Signal (s + 128) = (s : Int)) := by
  have hconv : convertWaitStatus signame w = some (.errorf ("signal: " ++ signame S)) := by
    rw [convert_of_Signaled signame w hs, hS]
  refine ⟨hconv, ?_, ?_, rfl, ?_, ?_⟩
  · rw [hconv]; simp
  · intro c; rw [hconv]; simp
  · intro pre post closed cmd proc hpre hpid
    have hm : matchesTarget cmd.Process.Pid ⟨cmd.Process.Pid, w⟩ = true := by
      simp [matchesTarget, hs]
    refine ⟨?_, ?_⟩
    · rw [WaitWrapper_first signame pre _ post closed cmd hpre hm, hconv, reconcile_some]
    · rw [ProcessWaitWrapper_first signame pre _ post closed proc (hpid ▸ hpre) (hpid ▸ hm),
        hconv, reconcile_some]
  · intro s h1 h2
    have ha : WaitStatus.Signaled s = true := by rw [Signaled_iff]; omega
    have hb : WaitStatus.Signaled (s + 128) = true := by rw [Signaled_iff]; omega
    refine ⟨ha, ?_, hb, ?_⟩
    · rw [Signal_of_Signaled _ ha]; congr 1; omega
    · rw [Signal_of_Signaled _ hb]; congr 1; omega

/-- C6 as stated fails: it is not true that on every closed stream without a match the
call returns an error that is neither an `ExitError` nor a signal failure. On the empty
closed stream with a release that reports no error the call returns success. -/
theorem closed_stream_error_refuted :
    ¬ (∀ (q : List ProcessInfo) (cmd : Cmd),
        (∀ y ∈ q, matchesTarget cmd.Process.Pid y = false) →
        ∃ e rest, WaitWrapper exampleSigname true ⟨q, true⟩ cmd = .returned (some e) rest ∧
          (∀ c, e ≠ .exitError c) ∧
          (∀ s, e ≠ .errorf ("signal: " ++ exampleSigname s))) := by
  intro h
  obtain ⟨e, rest, heq, _, _⟩ := h [] ⟨⟨1, none, none⟩, none⟩ (by simp)
  have hval : WaitWrapper exampleSigname true ⟨[], true⟩ ⟨⟨1, none, none⟩, none⟩ =
      .returned none ⟨[], true⟩ := by decide
  rw [hval] at heq
  simp at heq

/-- C6 amended, closed-stream termination. In reaper mode, on every closed stream
without a notification matching the target (the empty one included) and for a started
target, neither wrapper hangs in the receive and neither panics: the loop ends with the
stream drained and the release call is made. The call returns exactly when the release
call returns (`cmd.Wait()` may block while the child is alive), and it hangs in that
call otherwise. No distinct closed-stream error exists: the value returned is success,
an `ExitError`, a signal failure or the release error. -/
theorem closed_stream_termination (signame : Int → String) (q : List ProcessInfo)
    (cmd : OSCmd) (process proc : OSProcess) (hstart : cmd.Process = some process)
    (hcmd : ∀ y ∈ q, matchesTarget process.Pid y = false)
    (hproc : ∀ y ∈ q, matchesTarget proc.Pid y = false) :
    (WaitWrapperRun signame true ⟨q, true⟩ cmd ≠ .blocked ∧
      (∀ ch, WaitWrapperRun signame true ⟨q, true⟩ cmd ≠ .panicked ch) ∧
      (cmd.Wait = .hangs → WaitWrapperRun signame true ⟨q, true⟩ cmd = .hung ⟨[], true⟩) ∧
      (∀ w, cmd.Wait = .returns w →
        ∃ r, WaitWrapperRun signame true ⟨q, true⟩ cmd = .returned r ⟨[], true⟩ ∧
          (r = none ∨ (∃ c, r = some (.exitError c)) ∨
            (∃ s, r = some (.errorf ("signal: " ++ signame s))) ∨ r = w))) ∧
    (ProcessWaitWrapperRun signame true ⟨q, true⟩ proc ≠ .blocked ∧
      (∀ ch, ProcessWaitWrapperRun signame true ⟨q, true⟩ proc ≠ .panicked ch) ∧
      (proc.Release = .hangs →
        ProcessWaitWrapperRun signame true ⟨q, true⟩ proc = .hung ⟨[], true⟩) ∧
      (∀ w, proc.Release = .returns w →
        ∃ r, ProcessWaitWrapperRun signame true ⟨q, true⟩ proc = .returned r ⟨[], true⟩ ∧
          (r = none ∨ (∃ c, r = some (.exitError c)) ∨
            (∃ s, r = some (.errorf ("signal: " ++ signame s))) ∨ r = w))) := by
  have hW := WaitWrapperRun_started signame ⟨q, true⟩ cmd process hstart
  have hP := ProcessWaitWrapperRun_reaper signame ⟨q, true⟩ proc
  simp only [rangeLoop_drained _ q hcmd] at hW
  simp only [rangeLoop_drained _ q hproc] at hP
  refine ⟨⟨?_, ?_, ?_, ?_⟩, ⟨?_, ?_, ?_, ?_⟩⟩
  · rw [hW]; cases cmd.Wait <;> simp
  · intro ch; rw [hW]; cases cmd.Wait <;> simp
  · intro h; rw [hW, h]
  · intro w h; rw [hW, h]; exact ⟨_, rfl, reconcile_classes signame _ w⟩
  · rw [hP]; cases proc.Release <;> simp
  · intro ch; rw [hP]; cases proc.Release <;> simp
  · intro h; rw [hP, h]
  · intro w h; rw [hP, h]; exact ⟨_, rfl, reconcile_classes signame _ w⟩

/-- C9, shared-stream starvation. A reaper-mode wait, through either wrapper, whose
first matching notification is `m` returns having removed the notifications before `m`
and `m` itself, and leaves what follows `m` unread. A later wait of another target on the
remaining stream, when that holds no match for it, blocks if the stream is open and
drains it if it is closed. For the open stream holding the terminal notification of
pid 2 and then that of pid 1, the wait on pid 1 discards the notification of pid 2 and
the wait on pid 2 that follows never receives a matching notification. -/
theorem shared_stream_starvation (signame : Int → String) (pre : List ProcessInfo)
    (m : ProcessInfo) (post : List ProcessInfo) (closed : Bool) (A B : Cmd)
    (PA PB : Process) (hPA : PA.Pid = A.Process.Pid) (hPB : PB.Pid = B.Process.Pid)
    (hpre : ∀ y ∈ pre, matchesTarget A.Process.Pid y = false)
    (hm : matchesTarget A.Process.Pid m = true)
    (hpost : ∀ y ∈ post, matchesTarget B.Process.Pid y = false) :
    (∃ err, WaitWrapper signame true ⟨pre ++ m :: post, closed⟩ A =
      .returned err ⟨post, closed⟩) ∧
    (closed = false → WaitWrapper signame true ⟨post, closed⟩ B = .blocked) ∧
    (closed = true → ∃ err, WaitWrapper signame true ⟨post, closed⟩ B =
      .returned err ⟨[], true⟩) ∧
    (∃ (a b : ProcessInfo) (cmdA cmdB : Cmd) (err : Option GoError),
      cmdA.Process.Pid ≠ cmdB.Process.Pid ∧
      matchesTarget cmdA.Process.Pid a = true ∧ matchesTarget cmdB.Process.Pid b = true ∧
      WaitWrapper signame true ⟨[b, a], false⟩ cmdA = .returned err ⟨[], false⟩ ∧
      WaitWrapper signame true ⟨[], false⟩ cmdB = .blocked) ∧
    (∃ err, ProcessWaitWrapper signame true ⟨pre ++ m :: post, closed⟩ PA =
      .returned err ⟨post, closed⟩) ∧
    (closed = false → ProcessWaitWrapper signame true ⟨post, closed⟩ PB = .blocked) ∧
    (closed = true → ∃ err, ProcessWaitWrapper signame true ⟨post, closed⟩ PB =
      .returned err ⟨[], true⟩) ∧
    (∃ (a b : ProcessInfo) (procA procB : Process) (err : Option GoError),
      procA.Pid ≠ procB.Pid ∧
      matchesTarget procA.Pid a = true ∧ matchesTarget procB.Pid b = true ∧
      ProcessWaitWrapper signame true ⟨[b, a], false⟩ procA = .returned err ⟨[], false⟩ ∧
      ProcessWaitWrapper signame true ⟨[], false⟩ procB = .blocked) := by
  refine ⟨⟨_, WaitWrapper_first signame pre m post closed A hpre hm⟩, ?_, ?_, ?_,
    ⟨_, ProcessWaitWrapper_first signame pre m post closed PA (hPA ▸ hpre) (hPA ▸ hm)⟩,
    ?_, ?_, ?_⟩
  · intro hc
    subst hc
    exact WaitWrapper_starved signame post B hpost
  · intro hc
    subst hc
    exact ⟨_, WaitWrapper_drained signame post B hpost⟩
  · refine ⟨⟨1, 0⟩, ⟨2, 0⟩, ⟨⟨1, none, none⟩, none⟩, ⟨⟨2, none, none⟩, none⟩, none,
      by decide, by decide, by decide, ?_, ?_⟩
    · have h := WaitWrapper_first signame [⟨2, 0⟩] ⟨1, 0⟩ [] false ⟨⟨1, none, none⟩, none⟩
        (by decide) (by decide)
      rw [convert_of_Exited signame _ (by decide)] at h
      exact h
    · exact WaitWrapper_starved signame [] _ (by simp)
  · intro hc
    subst hc
    exact ProcessWaitWrapper_starved signame post PB (hPB ▸ hpost)
  · intro hc
    subst hc
    exact ⟨_, ProcessWaitWrapper_drained signame post PB (hPB ▸ hpost)⟩
  · refine ⟨⟨1, 0⟩, ⟨2, 0⟩, ⟨1, none, none⟩, ⟨2, none, none⟩, none,
      by decide, by decide, by decide, ?_, ?_⟩
    · have h := ProcessWaitWrapper_first signame [⟨2, 0⟩] ⟨1, 0⟩ [] false ⟨1, none, none⟩
        (by decide) (by decide)
      rw [convert_of_Exited signame _ (by decide)] at h
      exact h
    · exact ProcessWaitWrapper_starved signame [] _ (by simp)

/-- C10, result on an exhausted stream. In reaper mode, on a closed stream without a
notification matching the target, both wrappers return the conversion of the status of
the last notification received (of the zero `ProcessInfo` when the stream was empty)
reconciled with the release outcome. The zero status reads as exited with code 0, so on
the empty closed stream the result is success unless the release fails with a
non-benign error. When the last notification has status exited with a non-zero code or
signaled, it belongs to another pid and the call returns the `ExitError` or the signal
failure of that other process. -/
theorem exhausted_stream_result (signame : Int → String) (q : List ProcessInfo)
    (cmd : Cmd) (proc : Process) (hpid : proc.Pid = cmd.Process.Pid)
    (hq : ∀ y ∈ q, matchesTarget cmd.Process.Pid y = false) :
    WaitWrapper signame true ⟨q, true⟩ cmd =
      .returned (reconcile (convertWaitStatus signame (q.getLast?.getD default).Status)
        cmd.Wait) ⟨[], true⟩ ∧
    ProcessWaitWrapper signame true ⟨q, true⟩ proc =
      .returned (reconcile (convertWaitStatus signame (q.getLast?.getD default).Status)
        proc.Release) ⟨[], true⟩ ∧
    (q = [] →
      (default : ProcessInfo).Status = 0 ∧ WaitStatus.Exited 0 = true ∧
      WaitStatus.ExitStatus 0 = 0 ∧
      (cmd.Wait = none → WaitWrapper signame true ⟨q, true⟩ cmd = .returned none ⟨[], true⟩) ∧
      (∀ r, cmd.Wait = some r → r.Error = "waitid: no child processes" →
        WaitWrapper signame true ⟨q, true⟩ cmd = .returned none ⟨[], true⟩) ∧
      (∀ r, cmd.Wait = some r → r.Error ≠ "waitid: no child processes" →
        WaitWrapper signame true ⟨q, true⟩ cmd = .returned (some r) ⟨[], true⟩)) ∧
    (∀ (init : List ProcessInfo) (last : ProcessInfo), q = init ++ [last] →
      (∀ c : Int, c ≠ 0 → WaitStatus.Exited last.Status = true →
        WaitStatus.ExitStatus last.Status = c →
        last.Pid ≠ cmd.Process.Pid ∧
        WaitWrapper signame true ⟨q, true⟩ cmd =
          .returned (some (.exitError c)) ⟨[], true⟩ ∧
        ProcessWaitWrapper signame true ⟨q, true⟩ proc =
          .returned (some (.exitError c)) ⟨[], true⟩) ∧
      (WaitStatus.Signaled last.Status = true →
        last.Pid ≠ cmd.Process.Pid ∧
        WaitWrapper signame true ⟨q, true⟩ cmd =
          .returned (some (.errorf ("signal: " ++ signame (WaitStatus.Signal last.Status))))
            ⟨[], true⟩ ∧
        ProcessWaitWrapper signame true ⟨q, true⟩ proc =
          .returned (some (.errorf ("signal: " ++ signame (WaitStatus.Signal last.Status))))
            ⟨[], true⟩)) := by
  have hW := WaitWrapper_drained signame q cmd hq
  have hP := ProcessWaitWrapper_drained signame q proc (hpid ▸ hq)
  refine ⟨hW, hP, ?_, ?_⟩
  · intro hnil
    subst hnil
    have hc : convertWaitStatus signame (([] : List ProcessInfo).getLast?.getD default).Status
        = none := by
      have hx : WaitStatus.Exited 0 = true := by decide
      have hz : WaitStatus.ExitStatus 0 = 0 := by decide
      show convertWaitStatus signame 0 = none
      rw [convert_of_Exited signame 0 hx]; simp [hz]
    rw [hc] at hW
    refine ⟨rfl, by decide, by decide, ?_, ?_, ?_⟩
    · intro h; rw [hW, h]; rfl
    · intro r h hr; rw [hW, h]; simp [reconcile, hr]
    · intro r h hr; rw [hW, h]; simp [reconcile, hr]
  · intro init last hlast
    subst hlast
    have hl : ((init ++ [last]).getLast?.getD default) = last := by simp
    rw [hl] at hW hP
    have hnm : matchesTarget cmd.Process.Pid last = false := hq last (by simp)
    refine ⟨?_, ?_⟩
    · intro c hc hx hes
      have hne : last.Pid ≠ cmd.Process.Pid := by
        intro heq
        simp [matchesTarget, heq, hx] at hnm
      have hconv : convertWaitStatus signame last.Status = some (.exitError c) := by
        rw [convert_of_Exited signame _ hx, hes]; simp [hc]
      rw [hconv, reconcile_some] at hW hP
      exact ⟨hne, hW, hP⟩
    · intro hs
      have hne : last.Pid ≠ cmd.Process.Pid := by
        intro heq
        simp [matchesTarget, heq, hs] at hnm
      rw [convert_of_Signaled signame _ hs, reconcile_some] at hW hP
      exact ⟨hne, hW, hP⟩

/-! ## Instances on concrete streams -/

/-- C1 on the open stream `(2, killed), (1, stopped), (1, exit 7), (3, killed)` with
target pid 1: the stream splits at `(1, exit 7)`. -/
theorem pid_isolation_witness :
    (∃ x ∈ [(⟨2, 9⟩ : ProcessInfo), ⟨1, 0x7F⟩, ⟨1, 0x700⟩, ⟨3, 9⟩], matchesTarget 1 x = true) ∧
    ∃ pre m post, [(⟨2, 9⟩ : ProcessInfo), ⟨1, 0x7F⟩, ⟨1, 0x700⟩, ⟨3, 9⟩] = pre ++ m :: post ∧
      (∀ y ∈ pre, matchesTarget 1 y = false) ∧ matchesTarget 1 m = true ∧
      ∀ cmd : Cmd, cmd.Process.Pid = 1 →
        WaitWrapper exampleSigname true ⟨[⟨2, 9⟩, ⟨1, 0x7F⟩, ⟨1, 0x700⟩, ⟨3, 9⟩], false⟩ cmd =
          .returned (reconcile (convertWaitStatus exampleSigname m.Status) cmd.Wait)
            ⟨post, false⟩ := by
  have h : ∃ x ∈ [(⟨2, 9⟩ : ProcessInfo), ⟨1, 0x7F⟩, ⟨1, 0x700⟩, ⟨3, 9⟩],
      matchesTarget 1 x = true := ⟨⟨1, 0x700⟩, by simp, by decide⟩
  obtain ⟨pre, m, post, hq, hpre, hm, _, _, hW, _⟩ :=
    pid_isolation exampleSigname 1 ⟨[⟨2, 9⟩, ⟨1, 0x7F⟩, ⟨1, 0x700⟩, ⟨3, 9⟩], false⟩ h
  exact ⟨h, pre, m, post, hq, hpre, hm, fun cmd hc => (hW cmd hc).1⟩

/-- C4 on `ExitError` 7 with a release that fails with an unrelated error. -/
theorem non_masking_witness :
    WaitWrapper exampleSigname true ⟨[⟨2, 0⟩, ⟨1, 0x700⟩], false⟩
        ⟨⟨1, none, none⟩, some (.osError "permission denied")⟩ =
      .returned (some (.exitError 7)) ⟨[], false⟩ ∧
    ProcessWaitWrapper exampleSigname true ⟨[⟨2, 0⟩, ⟨1, 0x700⟩], false⟩
        ⟨1, none, some (.osError "permission denied")⟩ =
      .returned (some (.exitError 7)) ⟨[], false⟩ :=
  have h := non_masking exampleSigname 1 [⟨2, 0⟩] ⟨1, 0x700⟩ [] false
    ⟨⟨1, none, none⟩, some (.osError "permission denied")⟩
    ⟨1, none, some (.osError "permission denied")⟩ (.exitError 7) rfl rfl
    (by decide) (by decide) (by decide)
  ⟨h.1, h.2.1⟩

/-- C5 on a release error whose text differs from the benign one by case only: it is
returned. -/
theorem release_masking_witness :
    WaitWrapper exampleSigname true ⟨[⟨2, 9⟩, ⟨1, 0⟩], true⟩
        ⟨⟨1, none, none⟩, some (.osError "Waitid: no child processes")⟩ =
      .returned (some (.osError "Waitid: no child processes")) ⟨[], true⟩ ∧
    ProcessWaitWrapper exampleSigname true ⟨[⟨2, 9⟩, ⟨1, 0⟩], true⟩
        ⟨1, none, some (.osError "waitid: no child processes")⟩ =
      .returned none ⟨[], true⟩ :=
  have h := release_masking exampleSigname 1 [⟨2, 9⟩] ⟨1, 0⟩ [] true
    ⟨⟨1, none, none⟩, some (.osError "Waitid: no child processes")⟩
    ⟨1, none, some (.osError "waitid: no child processes")⟩ rfl rfl
    (by decide) rfl (by decide) (by decide)
  ⟨h.2.2.1 _ rfl (by decide), h.2.2.2.2.1 _ rfl (by decide)⟩

/-- C8 on a stream with a match, the release failing with an unrelated error. -/
theorem entry_point_equivalence_witness :
    ProcessWaitWrapper exampleSigname true ⟨[⟨2, 9⟩, ⟨1, 0⟩, ⟨3, 0⟩], false⟩
        ⟨1, none, some (.osError "permission denied")⟩ =
      WaitWrapper exampleSigname true ⟨[⟨2, 9⟩, ⟨1, 0⟩, ⟨3, 0⟩], false⟩
        ⟨⟨1, none, none⟩, some (.osError "permission denied")⟩ :=
  entry_point_equivalence exampleSigname ⟨[⟨2, 9⟩, ⟨1, 0⟩, ⟨3, 0⟩], false⟩
    ⟨⟨1, none, none⟩, some (.osError "permission denied")⟩
    ⟨1, none, some (.osError "permission denied")⟩ rfl rfl

/-- C2 on exit code 7. -/
theorem exit_code_round_trip_witness :
    7 ≤ 255 ∧ WaitStatus.Exited 0x700 = true ∧ WaitStatus.ExitStatus 0x700 = 7 ∧
    (GoError.exitError 7).Error = "exit status 7" ∧
    convertWaitStatus exampleSigname 0x700 = some (.exitError 7) ∧
    WaitWrapper exampleSigname true ⟨[⟨2, 9⟩, ⟨1, 0x700⟩], false⟩ ⟨⟨1, none, none⟩, none⟩ =
      .returned (some (.exitError 7)) ⟨[], false⟩ :=
  have h := exit_code_round_trip exampleSigname 7 (by decide)
  have hw := h.2.2.2 0x700 (by decide) (by decide)
  ⟨by decide, h.1, h.2.1, h.2.2.1, hw.1,
    (hw.2 [⟨2, 9⟩] [] false ⟨⟨1, none, none⟩, none⟩ ⟨1, none, none⟩ (by decide) rfl rfl rfl).1⟩

/-- C3 on `SIGKILL`, the release failing with an unrelated error. -/
theorem signal_classification_witness :
    WaitStatus.Signaled 9 = true ∧ WaitStatus.Signal 9 = 9 ∧
    convertWaitStatus exampleSigname 9 = some (.errorf "signal: killed") ∧
    WaitWrapper exampleSigname true ⟨[⟨2, 0⟩, ⟨1, 9⟩], false⟩
        ⟨⟨1, none, none⟩, some (.osError "permission denied")⟩ =
      .returned (some (.errorf "signal: killed")) ⟨[], false⟩ :=
  have h := signal_classification exampleSigname 9 9 (by decide) (by decide)
  ⟨by decide, by decide, h.1,
    (h.2.2.2.2.1 [⟨2, 0⟩] [] false ⟨⟨1, none, none⟩, some (.osError "permission denied")⟩
      ⟨1, none, none⟩ (by decide) rfl).1⟩

/-- C6 amended, on the closed stream holding only the notification of another pid:
with a child that is still alive `cmd.Wait()` never returns and the call hangs there,
not in the receive; `ProcessWaitWrapper`, whose release returns, returns. -/
theorem closed_stream_termination_witness :
    WaitWrapperRun exampleSigname true ⟨[⟨2, 9⟩], true⟩
        ⟨some ⟨1, .hangs, .returns none⟩, .hangs⟩ = .hung ⟨[], true⟩ ∧
    ∃ r, ProcessWaitWrapperRun exampleSigname true ⟨[⟨2, 9⟩], true⟩
          ⟨1, .hangs, .returns none⟩ = .returned r ⟨[], true⟩ ∧
      (r = none ∨ (∃ c, r = some (.exitError c)) ∨
        (∃ s, r = some (.errorf ("signal: " ++ exampleSigname s))) ∨ r = none) :=
  have h := closed_stream_termination exampleSigname [⟨2, 9⟩]
    ⟨some ⟨1, .hangs, .returns none⟩, .hangs⟩ ⟨1, .hangs, .returns none⟩
    ⟨1, .hangs, .returns none⟩ rfl (by decide) (by decide)
  ⟨h.1.2.2.1 rfl, h.2.2.2.2 none rfl⟩

/-- C9 on the open stream `(2, exit 0), (1, exit 0)`: the wait on pid 1 empties the
stream and the wait on pid 2 that follows blocks, through either wrapper. -/
theorem shared_stream_starvation_witness :
    (∃ err, WaitWrapper exampleSigname true ⟨[⟨2, 0⟩, ⟨1, 0⟩], false⟩ ⟨⟨1, none, none⟩, none⟩ =
      .returned err ⟨[], false⟩) ∧
    WaitWrapper exampleSigname true ⟨[], false⟩ ⟨⟨2, none, none⟩, none⟩ = .blocked ∧
    (∃ err, ProcessWaitWrapper exampleSigname true ⟨[⟨2, 0⟩, ⟨1, 0⟩], false⟩ ⟨1, none, none⟩ =
      .returned err ⟨[], false⟩) ∧
    ProcessWaitWrapper exampleSigname true ⟨[], false⟩ ⟨2, none, none⟩ = .blocked :=
  have h := shared_stream_starvation exampleSigname [⟨2, 0⟩] ⟨1, 0⟩ [] false
    ⟨⟨1, none, none⟩, none⟩ ⟨⟨2, none, none⟩, none⟩ ⟨1, none, none⟩ ⟨2, none, none⟩
    rfl rfl (by decide) (by decide) (by decide)
  ⟨h.1, h.2.1 rfl, h.2.2.2.2.1, h.2.2.2.2.2.1 rfl⟩

/-- C10 on the closed stream holding only the kill notification of pid 2, target pid 1:
the signal failure of pid 2 is returned. -/
theorem exhausted_stream_result_witness :
    WaitWrapper exampleSigname true ⟨[⟨2, 9⟩], true⟩
        ⟨⟨1, none, none⟩, some (.osError "waitid: no child processes")⟩ =
      .returned (some (.errorf "signal: killed")) ⟨[], true⟩ ∧
    ProcessWaitWrapper exampleSigname true ⟨[⟨2, 9⟩], true⟩
        ⟨1, none, some (.osError "waitid: no child processes")⟩ =
      .returned (some (.errorf "signal: killed")) ⟨[], true⟩ :=
  have h := exhausted_stream_result exampleSigname [⟨2, 9⟩]
    ⟨⟨1, none, none⟩, some (.osError "waitid: no child processes")⟩
    ⟨1, none, some (.osError "waitid: no child processes")⟩ rfl (by decide)
  have hs := (h.2.2.2 [] ⟨2, 9⟩ rfl).2 (by decide)
  ⟨hs.2.1, hs.2.2⟩

end Reaper
